import Mathlib

/-!
Verification of the PythonPowerFlow repository: Lean shallow embedding of the
Bus / TransmissionLine / Transformer / Generator / Load / Circuit classes and
of the Y-bus assembly described by the specification. Python floats are
embedded as rationals; Python complex values as pairs of rationals; Python
exceptions as explicit error values. A raised exception leaves the object in
whatever state the method had reached, so mutators return the post-call object
state together with an optional error.
-/

/-- Complex number over the rationals: embeds Python complex values exactly. -/
@[ext]
structure CQ where
  re : ℚ
  im : ℚ
deriving DecidableEq, Repr

def CQ.add (a b : CQ) : CQ := ⟨a.re + b.re, a.im + b.im⟩

def CQ.neg (a : CQ) : CQ := ⟨-a.re, -a.im⟩

instance : Add CQ := ⟨CQ.add⟩

instance : Neg CQ := ⟨CQ.neg⟩

instance : Zero CQ := ⟨⟨0, 0⟩⟩

instance : AddCommMonoid CQ where
  add_assoc a b c := by ext <;> exact add_assoc ..
  zero_add a := by ext <;> exact zero_add ..
  add_zero a := by ext <;> exact add_zero ..
  add_comm a b := by ext <;> exact add_comm ..
  nsmul := nsmulRec

/-- Errors raised by the Python code. Each constructor corresponds to one
distinct ValueError message in the source:
nonEmptyString = "name must be a non-empty string" (and variants),
nonNegative = "r and x must be non-negative." / "r, x, b_shunt, g_shunt must
be non-negative." / "r must be >= 0" / "v_setpoint must be positive when
provided", bothZero = "r and x cannot both be zero.",
alreadyExists = "... already exists in circuit",
notBothInCircuit = "... are not both in circuit". -/
inductive PyErr where
  | nonEmptyString
  | nonNegative
  | bothZero
  | alreadyExists
  | notBothInCircuit
deriving DecidableEq, Repr

/-- Local 2x2 admittance matrix (a pandas DataFrame in the source, labeled by
the two endpoint bus names carried by the owning element; fields are the four
entries, m11 at row bus1 / column bus1 and so on). -/
structure YPrim where
  m11 : CQ
  m12 : CQ
  m21 : CQ
  m22 : CQ
deriving DecidableEq, Repr

/-! ## TransmissionLine (src/transmissionline.py, the variant circuit.py imports) -/

/-- State of a TransmissionLine object: stored name and endpoint names, stored
series parameters r and x, the cached fields g and b computed at construction
by calc_g / calc_b, and the cached admittance matrix built at construction. -/
structure TransmissionLine where
  name : String
  bus1_name : String
  bus2_name : String
  r : ℚ
  x : ℚ
  g : ℚ
  b : ℚ
  admittance_matrix : YPrim
deriving DecidableEq, Repr

/-- TransmissionLine._validate_params: the isinstance checks are vacuous in
the embedding (all names are strings); the emptiness check compares with the
exact empty string, without trimming. -/
def TransmissionLine.validate_params (name bus1_name bus2_name : String)
    (r x : ℚ) : Option PyErr :=
  if name = "" ∨ bus1_name = "" ∨ bus2_name = "" then some PyErr.nonEmptyString
  else if r < 0 ∨ x < 0 then some PyErr.nonNegative
  else if r = 0 ∧ x = 0 then some PyErr.bothZero
  else none

/-- TransmissionLine.calc_g: r / (r^2 + x^2). -/
def TransmissionLine.calc_g (r x : ℚ) : ℚ := r / (r ^ 2 + x ^ 2)

/-- TransmissionLine.calc_b: -x / (r^2 + x^2). -/
def TransmissionLine.calc_b (r x : ℚ) : ℚ := -x / (r ^ 2 + x ^ 2)

/-- TransmissionLine._build_admittance_matrix: y = g + jb from the cached g, b;
each diagonal entry is y + j * calc_g(r, x) / 2 (the code calls self.calc_g()
again here); off-diagonal entries are -y. -/
def TransmissionLine.build_admittance_matrix (r x g b : ℚ) : YPrim :=
  let y : CQ := ⟨g, b⟩
  let diag : CQ := y + ⟨0, TransmissionLine.calc_g r x / 2⟩
  { m11 := diag, m12 := -y, m21 := -y, m22 := diag }

/-- TransmissionLine.__init__: stores the arguments verbatim (no trimming),
validates, then caches g, b and the admittance matrix. On a validation error
no object is produced. -/
def TransmissionLine.init (name bus1_name bus2_name : String) (r x : ℚ) :
    Except PyErr TransmissionLine :=
  match TransmissionLine.validate_params name bus1_name bus2_name r x with
  | some e => Except.error e
  | none =>
      let g := TransmissionLine.calc_g r x
      let b := TransmissionLine.calc_b r x
      Except.ok ⟨name, bus1_name, bus2_name, r, x, g, b,
        TransmissionLine.build_admittance_matrix r x g b⟩

/-- TransmissionLine r setter: rejects a negative value before mutating,
otherwise stores the new r. The cached g, b and admittance matrix are NOT
rebuilt. -/
def TransmissionLine.set_r (t : TransmissionLine) (value : ℚ) :
    TransmissionLine × Option PyErr :=
  if value < 0 then (t, some PyErr.nonNegative)
  else ({ t with r := value }, none)

/-- TransmissionLine x setter: performs no validation at all (the source
comments that negative x is allowed) and stores the new x. The cached g, b
and admittance matrix are NOT rebuilt. -/
def TransmissionLine.set_x (t : TransmissionLine) (value : ℚ) :
    TransmissionLine × Option PyErr :=
  ({ t with x := value }, none)

/-! ## Transformer (src/transformer.py) -/

/-- State of a Transformer object: names stored verbatim (plain attributes,
no property trimming on construction), series r, x, shunt g, b, and the
cached admittance matrix. -/
structure Transformer where
  name : String
  bus1_name : String
  bus2_name : String
  r : ℚ
  x : ℚ
  g : ℚ
  b : ℚ
  admittance_matrix : YPrim
deriving DecidableEq, Repr

/-- Transformer._validate_params, reading the current attribute values:
exact-empty-string checks on the names, then the non-negativity check on
r, x, g, b, then the joint not-both-zero check on r and x. -/
def Transformer.validate_params (name bus1_name bus2_name : String)
    (r x g b : ℚ) : Option PyErr :=
  if name = "" ∨ bus1_name = "" ∨ bus2_name = "" then some PyErr.nonEmptyString
  else if r < 0 ∨ x < 0 ∨ g < 0 ∨ b < 0 then some PyErr.nonNegative
  else if r = 0 ∧ x = 0 then some PyErr.bothZero
  else none

/-- Exact complex reciprocal 1 / (r + jx), as numpy computes 1/(self.r + 1j*self.x). -/
def Transformer.series_admittance (r x : ℚ) : CQ :=
  ⟨r / (r ^ 2 + x ^ 2), -x / (r ^ 2 + x ^ 2)⟩

/-- Transformer._build_admittance_matrix: y = 1/(r + jx); both diagonal
entries are y and both off-diagonal entries are -y. The stored shunt g and b
are never read here. -/
def Transformer.build_admittance_matrix (r x : ℚ) : YPrim :=
  let y := Transformer.series_admittance r x
  { m11 := y, m12 := -y, m21 := -y, m22 := y }

/-- Transformer.__init__: stores all arguments verbatim, validates, then
caches the admittance matrix. On a validation error no object is produced. -/
def Transformer.init (name bus1_name bus2_name : String) (r x g b : ℚ) :
    Except PyErr Transformer :=
  match Transformer.validate_params name bus1_name bus2_name r x g b with
  | some e => Except.error e
  | none =>
      Except.ok ⟨name, bus1_name, bus2_name, r, x, g, b,
        Transformer.build_admittance_matrix r x⟩

/-- Transformer r setter: assigns the new value FIRST, then re-validates all
parameters; on failure the exception propagates with the new r already
stored and the old matrix still cached; on success the matrix is rebuilt. -/
def Transformer.set_r (t : Transformer) (value : ℚ) :
    Transformer × Option PyErr :=
  let t1 := { t with r := value }
  match Transformer.validate_params t1.name t1.bus1_name t1.bus2_name
      t1.r t1.x t1.g t1.b with
  | some e => (t1, some e)
  | none =>
      ({ t1 with admittance_matrix := Transformer.build_admittance_matrix t1.r t1.x }, none)

/-- Transformer x setter: same assign-then-validate-then-rebuild shape as the
r setter. -/
def Transformer.set_x (t : Transformer) (value : ℚ) :
    Transformer × Option PyErr :=
  let t1 := { t with x := value }
  match Transformer.validate_params t1.name t1.bus1_name t1.bus2_name
      t1.r t1.x t1.g t1.b with
  | some e => (t1, some e)
  | none =>
      ({ t1 with admittance_matrix := Transformer.build_admittance_matrix t1.r t1.x }, none)

/-- Transformer g setter: same assign-then-validate-then-rebuild shape. -/
def Transformer.set_g (t : Transformer) (value : ℚ) :
    Transformer × Option PyErr :=
  let t1 := { t with g := value }
  match Transformer.validate_params t1.name t1.bus1_name t1.bus2_name
      t1.r t1.x t1.g t1.b with
  | some e => (t1, some e)
  | none =>
      ({ t1 with admittance_matrix := Transformer.build_admittance_matrix t1.r t1.x }, none)

/-- Transformer b setter: same assign-then-validate-then-rebuild shape. -/
def Transformer.set_b (t : Transformer) (value : ℚ) :
    Transformer × Option PyErr :=
  let t1 := { t with b := value }
  match Transformer.validate_params t1.name t1.bus1_name t1.bus2_name
      t1.r t1.x t1.g t1.b with
  | some e => (t1, some e)
  | none =>
      ({ t1 with admittance_matrix := Transformer.build_admittance_matrix t1.r t1.x }, none)

/-! ## Bus, Generator, Load (src/bus.py, src/generator.py, src/load.py) -/

/-- Bus.__init__ performs no validation and no trimming; the process-wide
bus_index counter is informational only (never read by any code under
verification) and is omitted from the embedding. -/
structure Bus where
  name : String
  nominal_kv : ℚ
deriving DecidableEq, Repr

/-- Python str.strip(): drop whitespace from both ends. Defined over the
character list so that it reduces in the kernel. -/
def pyStrip (s : String) : String :=
  String.mk (((s.data.dropWhile Char.isWhitespace).reverse.dropWhile
    Char.isWhitespace).reverse)

/-- Generator object state; v_setpoint is Optional in the source. -/
structure Generator where
  name : String
  bus_name : String
  mw_setpoint : ℚ
  v_setpoint : Option ℚ
deriving DecidableEq, Repr

/-- Generator.__init__ / _validate_params: name and bus_name must be
non-empty AFTER stripping (this class, unlike the others, uses .strip());
mw_setpoint finiteness is automatic over the rationals; a provided
v_setpoint must be positive. -/
def Generator.init (name bus_name : String) (mw_setpoint : ℚ)
    (v_setpoint : Option ℚ) : Except PyErr Generator :=
  if pyStrip name = "" ∨ pyStrip bus_name = "" then Except.error PyErr.nonEmptyString
  else match v_setpoint with
    | some v =>
        if v ≤ 0 then Except.error PyErr.nonNegative
        else Except.ok ⟨name, bus_name, mw_setpoint, some v⟩
    | none => Except.ok ⟨name, bus_name, mw_setpoint, none⟩

/-- Load object state. -/
structure Load where
  name : String
  bus1_name : String
  mw : ℚ
  mvar : ℚ
deriving DecidableEq, Repr

/-- Load.__init__ / _validate_params: exact-empty-string checks only; mw and
mvar are unconstrained. -/
def Load.init (name bus1_name : String) (mw mvar : ℚ) : Except PyErr Load :=
  if name = "" ∨ bus1_name = "" then Except.error PyErr.nonEmptyString
  else Except.ok ⟨name, bus1_name, mw, mvar⟩

/-! ## Circuit (src/circuit.py) -/

/-- A Python dict with insertion order is embedded as an association list to
which new keys are appended; all add methods check key membership before
inserting, so keys stay unique. -/
def hasKey {α : Type} (l : List (String × α)) (k : String) : Bool :=
  l.any (fun p => p.1 = k)

/-- Circuit object state: the five equipment dictionaries. -/
structure Circuit where
  name : String
  buses : List (String × Bus)
  transformers : List (String × Transformer)
  transmission_lines : List (String × TransmissionLine)
  generators : List (String × Generator)
  loads : List (String × Load)
deriving DecidableEq, Repr

/-- Circuit.add_bus: only a duplicate-name check; the name is not validated
or trimmed, and the Bus constructor validates nothing. On error the circuit
is returned unchanged. -/
def Circuit.add_bus (c : Circuit) (name : String) (nominal_kv : ℚ) :
    Circuit × Option PyErr :=
  if hasKey c.buses name then (c, some PyErr.alreadyExists)
  else ({ c with buses := c.buses ++ [(name, ⟨name, nominal_kv⟩)] }, none)

/-- Circuit.add_transformer: duplicate-name check, then the check that both
endpoint buses are registered, then Transformer construction (with shunt
g = b = 0, the defaults) and insertion. Any error leaves the circuit
unchanged. -/
def Circuit.add_transformer (c : Circuit) (name bus1_name bus2_name : String)
    (r x : ℚ) : Circuit × Option PyErr :=
  if hasKey c.transformers name then (c, some PyErr.alreadyExists)
  else if ¬ hasKey c.buses bus1_name ∨ ¬ hasKey c.buses bus2_name then
    (c, some PyErr.notBothInCircuit)
  else match Transformer.init name bus1_name bus2_name r x 0 0 with
    | Except.error e => (c, some e)
    | Except.ok t =>
        ({ c with transformers := c.transformers ++ [(name, t)] }, none)

/-- Circuit.add_transmission_line: duplicate-name check, then the
both-buses-registered check, then TransmissionLine construction and
insertion. Any error leaves the circuit unchanged. -/
def Circuit.add_transmission_line (c : Circuit)
    (name bus1_name bus2_name : String) (r x : ℚ) : Circuit × Option PyErr :=
  if hasKey c.transmission_lines name then (c, some PyErr.alreadyExists)
  else if ¬ hasKey c.buses bus1_name ∨ ¬ hasKey c.buses bus2_name then
    (c, some PyErr.notBothInCircuit)
  else match TransmissionLine.init name bus1_name bus2_name r x with
    | Except.error e => (c, some e)
    | Except.ok t =>
        ({ c with transmission_lines := c.transmission_lines ++ [(name, t)] }, none)

/-- Circuit.add_generator: duplicate-name check only; no bus-existence check.
The source forwards (voltage_setpoint, mw_setpoint) to
Generator(name, bus_name, mw_setpoint, v_setpoint). -/
def Circuit.add_generator (c : Circuit) (name bus_name : String)
    (voltage_setpoint mw_setpoint : ℚ) : Circuit × Option PyErr :=
  if hasKey c.generators name then (c, some PyErr.alreadyExists)
  else match Generator.init name bus_name mw_setpoint (some voltage_setpoint) with
    | Except.error e => (c, some e)
    | Except.ok gobj =>
        ({ c with generators := c.generators ++ [(name, gobj)] }, none)

/-- Circuit.add_load: duplicate-name check only; no bus-existence check. -/
def Circuit.add_load (c : Circuit) (name bus1_name : String) (mw mvar : ℚ) :
    Circuit × Option PyErr :=
  if hasKey c.loads name then (c, some PyErr.alreadyExists)
  else match Load.init name bus1_name mw mvar with
    | Except.error e => (c, some e)
    | Except.ok l =>
        ({ c with loads := c.loads ++ [(name, l)] }, none)

/-! ## Y-bus assembly

The tests (test_circuit.py, debug_ybus_import.py) read a Circuit attribute
_y_bus, but no assembler implementation is present under src/. The assembler
below is therefore modelled from the specification. -/

/-- Registered bus names in registry insertion order. -/
def Circuit.busNames (c : Circuit) : List String := c.buses.map Prod.fst

/-- Branch element view used by the assembler: two endpoint bus names plus
the local 2x2 admittance matrix. -/
structure BranchEntry where
  bus1 : String
  bus2 : String
  yprim : YPrim
deriving DecidableEq, Repr

/-- All branch elements currently in the circuit (transmission lines and
transformers), each reduced to its endpoints and local matrix. -/
def Circuit.branchEntries (c : Circuit) : List BranchEntry :=
  c.transmission_lines.map
    (fun p => ⟨p.2.bus1_name, p.2.bus2_name, p.2.admittance_matrix⟩)
  ++ c.transformers.map
    (fun p => ⟨p.2.bus1_name, p.2.bus2_name, p.2.admittance_matrix⟩)

/-- Index of a bus name in the registry order (List.indexOf). -/
def busIdx (names : List String) (bus : String) : Nat := names.indexOf bus

/-- Add a value into one cell of a matrix represented as a function. -/
def addEntry (m : Nat → Nat → CQ) (i j : Nat) (v : CQ) : Nat → Nat → CQ :=
  fun a b => if a = i ∧ b = j then m a b + v else m a b

/-- Modelled from the spec: step 3 of the assembly algorithm of section 4.2 —
scatter-add the four entries of one element local matrix into the global
matrix cells addressed by its two endpoint bus indices. -/
def scatterOne (names : List String) (m : Nat → Nat → CQ) (e : BranchEntry) :
    Nat → Nat → CQ :=
  let i1 := busIdx names e.bus1
  let i2 := busIdx names e.bus2
  addEntry (addEntry (addEntry (addEntry m i1 i1 e.yprim.m11)
    i1 i2 e.yprim.m12) i2 i1 e.yprim.m21) i2 i2 e.yprim.m22

/-- Modelled from the spec: Circuit.get_admittance_matrix (the _y_bus read by
the tests; its implementation is absent from src/). Per section 4.2: start
from the all-zero N x N matrix, N the current number of registered buses, and
scatter-add every branch element contribution; the result is labeled by the
bus names in registry insertion order. The matrix is a total function on
index pairs; only indices below N are meaningful. -/
def Circuit.get_admittance_matrix (c : Circuit) :
    List String × (Nat → Nat → CQ) :=
  (c.busNames, c.branchEntries.foldl (scatterOne c.busNames) (fun _ _ => 0))

/-- The contribution of a single branch element to global cell (i, j): the
sum of those of its four local entries whose target cell is (i, j). -/
def contribAt (names : List String) (e : BranchEntry) (i j : Nat) : CQ :=
  (if i = busIdx names e.bus1 ∧ j = busIdx names e.bus1 then e.yprim.m11 else 0)
  + (if i = busIdx names e.bus1 ∧ j = busIdx names e.bus2 then e.yprim.m12 else 0)
  + (if i = busIdx names e.bus2 ∧ j = busIdx names e.bus1 then e.yprim.m21 else 0)
  + (if i = busIdx names e.bus2 ∧ j = busIdx names e.bus2 then e.yprim.m22 else 0)

deriving instance DecidableEq for Except

/-- Names used in concrete scenarios. -/
def busA : String := "A"

def busB : String := "B"

def nameL : String := "L1"

def nameT : String := "T1"

def nameG : String := "G1"

def nameWS : String := " "

/-- A concrete Transformer object state used to instantiate theorems. -/
def sampleT : Transformer :=
  ⟨nameT, busA, busB, 1, 1, 0, 0, ⟨⟨0, 0⟩, ⟨0, 0⟩, ⟨0, 0⟩, ⟨0, 0⟩⟩⟩

/-- A concrete TransmissionLine object state used to instantiate theorems. -/
def sampleL : TransmissionLine :=
  ⟨nameL, busA, busB, 1, 1, 0, 0, ⟨⟨0, 0⟩, ⟨0, 0⟩, ⟨0, 0⟩, ⟨0, 0⟩⟩⟩

/-- An empty circuit used to instantiate theorems. -/
def emptyCircuit : Circuit := ⟨"C", [], [], [], [], []⟩

/-- A concrete circuit with one bus, one line and one transformer, used to
instantiate theorems. -/
def cW : Circuit :=
  ⟨"C", [(busA, ⟨busA, 1⟩)], [(nameT, sampleT)], [(nameL, sampleL)], [], []⟩

/-- The empty string, as a named constant. -/
def emptyName : String := ""

/-! ## Theorems -/

theorem CQ.add_def (a b : CQ) : a + b = ⟨a.re + b.re, a.im + b.im⟩ := rfl

theorem CQ.neg_def (a : CQ) : -a = ⟨-a.re, -a.im⟩ := rfl

theorem CQ.zero_def : (0 : CQ) = ⟨0, 0⟩ := rfl

/-- Pointwise effect of one scatter step: the cell gains exactly the element
contribution at that cell. -/
theorem scatterOne_apply (names : List String) (m : Nat → Nat → CQ)
    (e : BranchEntry) (i j : Nat) :
    scatterOne names m e i j = m i j + contribAt names e i j := by
  simp only [scatterOne, addEntry, contribAt]
  split_ifs <;> abel

/-- Pointwise value of the scatter-add fold: starting matrix plus the sum of
all element contributions at the cell. -/
theorem foldl_scatter_apply (names : List String) (es : List BranchEntry)
    (m : Nat → Nat → CQ) (i j : Nat) :
    es.foldl (scatterOne names) m i j
      = m i j + (es.map (fun e => contribAt names e i j)).sum := by
  induction es generalizing m with
  | nil => simp
  | cons e es ih =>
      simp only [List.foldl_cons, List.map_cons, List.sum_cons]
      rw [ih, scatterOne_apply]
      abel

/-- Claim C1: get_admittance_matrix returns a labeled complex N x N matrix —
its labels are exactly the registered bus names in registry insertion order,
so N is the bus count at call time and the i-th row and column are labeled by
the i-th registered bus — and each entry (i, j) equals the sum, over all
transmission lines and transformers in the circuit, of that element local 2x2
contribution at the cells addressed by its two endpoint bus indices (an empty
sum, hence zero, where no element contributes). -/
theorem ybus_assembly_correct (c : Circuit) (i j : Nat) :
    (c.get_admittance_matrix).1 = c.buses.map Prod.fst ∧
    (c.get_admittance_matrix).2 i j
      = (c.branchEntries.map (fun e => contribAt c.busNames e i j)).sum := by
  refine ⟨rfl, ?_⟩
  simp only [Circuit.get_admittance_matrix]
  rw [foldl_scatter_apply]
  simp

/-- Claim C2 (refuted, code bug): for the transmission line of the spec
scenario, r = 1/50 and x = 1/5, the built local matrix has both diagonal
entries equal to Y_series + j * g_series / 2 = ⟨50/101, -475/101⟩, which is
NOT the series admittance Y_series = g + jb = ⟨50/101, -500/101⟩ required by
the claim (the code feeds the series conductance into the shunt slot of the
pi model, contradicting its own docstring, which promises diagonal = Y). -/
theorem line_diagonal_extra_term :
    (TransmissionLine.init nameL busA busB (1/50) (1/5)).map
      (fun t => (t.admittance_matrix.m11, t.admittance_matrix.m22,
        t.admittance_matrix.m12, t.admittance_matrix.m21))
      = Except.ok (⟨50/101, -475/101⟩, ⟨50/101, -475/101⟩,
          ⟨-(50/101), 500/101⟩, ⟨-(50/101), 500/101⟩)
    ∧ (⟨TransmissionLine.calc_g (1/50) (1/5),
        TransmissionLine.calc_b (1/50) (1/5)⟩ : CQ) = ⟨50/101, -500/101⟩
    ∧ (⟨50/101, -475/101⟩ : CQ) ≠ ⟨50/101, -500/101⟩ := by
  refine ⟨?_, ?_, ?_⟩
  · simp only [TransmissionLine.init, TransmissionLine.validate_params,
      TransmissionLine.calc_g, TransmissionLine.calc_b,
      TransmissionLine.build_admittance_matrix, nameL, busA, busB]
    norm_num [CQ.add_def, CQ.neg_def, Except.map]
    simp
  · simp only [TransmissionLine.calc_g, TransmissionLine.calc_b]
    norm_num
  · simp only [ne_eq, CQ.mk.injEq]
    norm_num

/-- Claim C3 (refuted, code bug): a transformer constructed with shunt
parameters g = 1/10 and b = 1/5 (and series r = 1/5, x = 3/10) gets diagonal
entries equal to the bare series admittance ⟨20/13, -30/13⟩: the stored shunt
parameters are never added, so the diagonal is NOT
Y_series + (g_shunt + j b_shunt)/2, contradicting the class docstring, which
promises [bus1, bus1] = Y + Y_shunt/2. -/
theorem transformer_shunt_ignored :
    (Transformer.init nameT busA busB (1/5) (3/10) (1/10) (1/5)).map
      (fun t => (t.admittance_matrix.m11, t.admittance_matrix.m22))
      = Except.ok (⟨20/13, -30/13⟩, ⟨20/13, -30/13⟩)
    ∧ Transformer.series_admittance (1/5) (3/10) = ⟨20/13, -30/13⟩
    ∧ Transformer.series_admittance (1/5) (3/10) + ⟨(1/10) / 2, (1/5) / 2⟩
        = ⟨413/260, -287/130⟩
    ∧ (⟨20/13, -30/13⟩ : CQ) ≠ ⟨413/260, -287/130⟩ := by
  refine ⟨?_, ?_, ?_, ?_⟩
  · simp only [Transformer.init, Transformer.validate_params,
      Transformer.series_admittance, Transformer.build_admittance_matrix,
      nameT, busA, busB]
    norm_num [Except.map]
    simp
  · simp only [Transformer.series_admittance]
    norm_num
  · simp only [Transformer.series_admittance, CQ.add_def]
    norm_num
  · simp only [ne_eq, CQ.mk.injEq]
    norm_num

/-- Claim C4 (refuted, code bug): for a transmission line built with r = 1,
x = 1, the mutation set_r 2 succeeds (no error, r becomes 2) but the next
read of admittance_matrix still returns the matrix cached at construction
from r = 1, x = 1, which differs from the matrix the builder produces from
the current parameters r = 2, x = 1 — a reachable state observing stale
data, because the TransmissionLine r and x setters never rebuild the cache
(unlike the Transformer setters). -/
theorem line_matrix_stale_after_set_r :
    (TransmissionLine.init nameL busA busB 1 1).map
      (fun t => ((t.set_r 2).2, (t.set_r 2).1.r, (t.set_r 2).1.x,
        (t.set_r 2).1.admittance_matrix, t.admittance_matrix))
      = Except.ok (none, 2, 1,
          ⟨⟨1/2, -1/4⟩, ⟨-(1/2), 1/2⟩, ⟨-(1/2), 1/2⟩, ⟨1/2, -1/4⟩⟩,
          ⟨⟨1/2, -1/4⟩, ⟨-(1/2), 1/2⟩, ⟨-(1/2), 1/2⟩, ⟨1/2, -1/4⟩⟩)
    ∧ TransmissionLine.build_admittance_matrix 2 1
        (TransmissionLine.calc_g 2 1) (TransmissionLine.calc_b 2 1)
      = ⟨⟨2/5, 0⟩, ⟨-(2/5), 1/5⟩, ⟨-(2/5), 1/5⟩, ⟨2/5, 0⟩⟩
    ∧ (⟨⟨1/2, -1/4⟩, ⟨-(1/2), 1/2⟩, ⟨-(1/2), 1/2⟩, ⟨1/2, -1/4⟩⟩ : YPrim)
      ≠ ⟨⟨2/5, 0⟩, ⟨-(2/5), 1/5⟩, ⟨-(2/5), 1/5⟩, ⟨2/5, 0⟩⟩ := by
  refine ⟨?_, ?_, ?_⟩
  · simp only [TransmissionLine.init, TransmissionLine.validate_params,
      TransmissionLine.calc_g, TransmissionLine.calc_b,
      TransmissionLine.build_admittance_matrix, TransmissionLine.set_r,
      nameL, busA, busB]
    norm_num [CQ.add_def, CQ.neg_def, Except.map]
    simp
  · simp only [TransmissionLine.build_admittance_matrix,
      TransmissionLine.calc_g, TransmissionLine.calc_b]
    norm_num [CQ.add_def, CQ.neg_def, YPrim.mk.injEq, CQ.mk.injEq]
  · simp only [ne_eq, YPrim.mk.injEq, CQ.mk.injEq]
    norm_num

/-- Claim C5 (counterexample): for the transmission line built with r = 1,
x = 1, the mutator call set_x (-1) passes an argument violating x ≥ 0, yet no
error is raised and the stored x becomes -1: the claim that every invalid
mutator argument raises and leaves the state unchanged is false. -/
theorem line_set_x_negative_accepted :
    (TransmissionLine.init nameL busA busB 1 1).map
      (fun t => ((t.set_x (-1)).2, (t.set_x (-1)).1.x))
      = Except.ok (none, -1) := by
  simp only [TransmissionLine.init, TransmissionLine.validate_params,
    TransmissionLine.set_x, nameL, busA, busB]
  norm_num [Except.map]
  simp

/-- Claim C5 (amended): a negative argument to the Transformer r or g mutator
does raise a ValueError and the cached admittance matrix retains its pre-call
value, but the stored scalar parameter is left holding the rejected value
(the setters assign before validating); the TransmissionLine x mutator
accepts any value, including invalid ones, without raising and stores it. -/
theorem mutator_error_behavior (t : Transformer) (v : ℚ) (hv : v < 0)
    (l : TransmissionLine) (w : ℚ) :
    ((t.set_r v).2.isSome = true ∧ (t.set_r v).1.r = v
      ∧ (t.set_r v).1.admittance_matrix = t.admittance_matrix)
    ∧ ((t.set_g v).2.isSome = true ∧ (t.set_g v).1.g = v
      ∧ (t.set_g v).1.admittance_matrix = t.admittance_matrix)
    ∧ ((l.set_x w).2 = none ∧ (l.set_x w).1.x = w) := by
  have hv' : ¬ (0 ≤ v) := not_le.mpr hv
  refine ⟨?_, ?_, by simp [TransmissionLine.set_x]⟩
  · simp only [Transformer.set_r, Transformer.validate_params]
    split_ifs with h1 h2 h3 <;> simp_all
  · simp only [Transformer.set_g, Transformer.validate_params]
    split_ifs with h1 h2 h3 <;> simp_all

/-- Witness for the amended C5, at the concrete transformer sampleT, the
concrete line sampleL, and the invalid value -1. -/
theorem mutator_error_behavior_witness :
    (((sampleT.set_r (-1)).2.isSome = true ∧ (sampleT.set_r (-1)).1.r = -1
      ∧ (sampleT.set_r (-1)).1.admittance_matrix = sampleT.admittance_matrix)
    ∧ ((sampleT.set_g (-1)).2.isSome = true ∧ (sampleT.set_g (-1)).1.g = -1
      ∧ (sampleT.set_g (-1)).1.admittance_matrix = sampleT.admittance_matrix)
    ∧ ((sampleL.set_x (-1)).2 = none ∧ (sampleL.set_x (-1)).1.x = -1)) :=
  mutator_error_behavior sampleT (-1) (by norm_num) sampleL (-1)

/-- Claim C6 (counterexample): the transmission line built with r = 1, x = 0
is valid; the mutator call set_r 0 then makes r and x simultaneously zero,
yet raises no error — the TransmissionLine r setter checks only r ≥ 0 and
does not re-validate the joint constraint. -/
theorem line_set_r_zero_zero_accepted :
    (TransmissionLine.init nameL busA busB 1 0).map
      (fun t => ((t.set_r 0).2, (t.set_r 0).1.r, (t.set_r 0).1.x))
      = Except.ok (none, 0, 0) := by
  simp only [TransmissionLine.init, TransmissionLine.validate_params,
    TransmissionLine.set_r, nameL, busA, busB]
  norm_num [Except.map]
  simp

/-- Claim C6 (amended): the Transformer r and x mutators do re-validate the
full constraint — for a transformer whose other fields are valid, set_x v
errors exactly when v < 0 or v makes r and x simultaneously zero, and
symmetrically for set_r — but the TransmissionLine x mutator never raises
and its r mutator accepts any non-negative value even when the stored x is
zero. -/
theorem mutator_revalidation_behavior (t : Transformer) (v : ℚ)
    (hn : ¬ t.name = "") (hb1 : ¬ t.bus1_name = "") (hb2 : ¬ t.bus2_name = "")
    (hr : 0 ≤ t.r) (hx : 0 ≤ t.x) (hg : 0 ≤ t.g) (hb : 0 ≤ t.b)
    (l : TransmissionLine) (w : ℚ) (hw : 0 ≤ w) :
    ((t.set_x v).2.isSome = true ↔ (v < 0 ∨ (t.r = 0 ∧ v = 0)))
    ∧ ((t.set_r v).2.isSome = true ↔ (v < 0 ∨ (v = 0 ∧ t.x = 0)))
    ∧ (l.set_x v).2 = none
    ∧ (l.set_r w).2 = none := by
  refine ⟨?_, ?_, rfl, ?_⟩
  · simp only [Transformer.set_x, Transformer.validate_params]
    split_ifs with h1 h2 h3
    · rcases h1 with h | h | h <;> simp_all
    · simp only [Option.isSome_some, true_iff]
      rcases h2 with h | h | h | h
      · exact absurd h (not_lt.mpr hr)
      · exact Or.inl h
      · exact absurd h (not_lt.mpr hg)
      · exact absurd h (not_lt.mpr hb)
    · simp only [Option.isSome_some, true_iff]
      exact Or.inr h3
    · simp only [Option.isSome_none, Bool.false_eq_true, false_iff]
      push_neg at h2
      rintro (h | h)
      · exact absurd h (not_lt.mpr h2.2.1)
      · exact h3 h
  · simp only [Transformer.set_r, Transformer.validate_params]
    split_ifs with h1 h2 h3
    · rcases h1 with h | h | h <;> simp_all
    · simp only [Option.isSome_some, true_iff]
      rcases h2 with h | h | h | h
      · exact Or.inl h
      · exact absurd h (not_lt.mpr hx)
      · exact absurd h (not_lt.mpr hg)
      · exact absurd h (not_lt.mpr hb)
    · simp only [Option.isSome_some, true_iff]
      exact Or.inr h3
    · simp only [Option.isSome_none, Bool.false_eq_true, false_iff]
      push_neg at h2
      rintro (h | h)
      · exact absurd h (not_lt.mpr h2.1)
      · exact h3 h
  · simp [TransmissionLine.set_r, not_lt.mpr hw]

/-- Witness for the amended C6, at the concrete transformer sampleT (valid
names, r = x = 1, g = b = 0), value v = -1, the concrete line sampleL and
value w = 0. -/
theorem mutator_revalidation_behavior_witness :
    (((sampleT.set_x (-1)).2.isSome = true
        ↔ ((-1 : ℚ) < 0 ∨ (sampleT.r = 0 ∧ (-1 : ℚ) = 0)))
    ∧ ((sampleT.set_r (-1)).2.isSome = true
        ↔ ((-1 : ℚ) < 0 ∨ ((-1 : ℚ) = 0 ∧ sampleT.x = 0)))
    ∧ (sampleL.set_x (-1)).2 = none
    ∧ (sampleL.set_r 0).2 = none) :=
  mutator_revalidation_behavior sampleT (-1)
    (by simp [sampleT, nameT]) (by simp [sampleT, busA]) (by simp [sampleT, busB])
    (by norm_num [sampleT]) (by norm_num [sampleT]) (by norm_num [sampleT])
    (by norm_num [sampleT]) sampleL 0 (by norm_num)

/-- Claim C7 (confirmed): constructing any branch element with r = 0 and
x = 0 raises a ValueError (the InvalidParameter class of the spec taxonomy,
which covers both the zero-impedance and the empty-name message) whatever the
name strings and shunt values, and produces no object (the constructor
returns only the error). -/
theorem construct_zero_impedance_rejected (name b1 b2 : String) (g b : ℚ) :
    (∃ e, TransmissionLine.init name b1 b2 0 0 = Except.error e)
    ∧ (∃ e, Transformer.init name b1 b2 0 0 g b = Except.error e) := by
  constructor
  · simp only [TransmissionLine.init, TransmissionLine.validate_params]
    split_ifs with h1 h2 h3
    · exact ⟨_, rfl⟩
    · norm_num at h2
    · exact ⟨_, rfl⟩
    · norm_num at h3
  · simp only [Transformer.init, Transformer.validate_params]
    split_ifs with h1 h2 h3
    · exact ⟨_, rfl⟩
    · exact ⟨_, rfl⟩
    · exact ⟨_, rfl⟩
    · norm_num at h3

/-- Claim C8 (confirmed): add_transmission_line and add_transformer raise a
ValueError when the element name already exists in its own collection (the
DuplicateName case, message "already exists in circuit") or — when the name
is fresh — when either endpoint bus is unregistered (the UnknownBus case,
message "are not both in circuit"); and whenever such a call returns an
error, the circuit is returned exactly as it was (no collection modified). -/
theorem circuit_add_branch_error_behavior (c : Circuit)
    (name b1 b2 : String) (r x : ℚ) :
    (hasKey c.transmission_lines name = true →
      c.add_transmission_line name b1 b2 r x = (c, some PyErr.alreadyExists))
    ∧ (hasKey c.transmission_lines name = false →
        (hasKey c.buses b1 = false ∨ hasKey c.buses b2 = false) →
        c.add_transmission_line name b1 b2 r x = (c, some PyErr.notBothInCircuit))
    ∧ (∀ e, (c.add_transmission_line name b1 b2 r x).2 = some e →
        (c.add_transmission_line name b1 b2 r x).1 = c)
    ∧ (hasKey c.transformers name = true →
      c.add_transformer name b1 b2 r x = (c, some PyErr.alreadyExists))
    ∧ (hasKey c.transformers name = false →
        (hasKey c.buses b1 = false ∨ hasKey c.buses b2 = false) →
        c.add_transformer name b1 b2 r x = (c, some PyErr.notBothInCircuit))
    ∧ (∀ e, (c.add_transformer name b1 b2 r x).2 = some e →
        (c.add_transformer name b1 b2 r x).1 = c) := by
  refine ⟨?_, ?_, ?_, ?_, ?_, ?_⟩
  · intro h
    simp [Circuit.add_transmission_line, h]
  · intro h1 h2
    rcases h2 with h | h <;>
      simp [Circuit.add_transmission_line, h1, h]
  · intro e
    simp only [Circuit.add_transmission_line]
    split_ifs with h1 h2
    · simp
    · simp
    · rcases hTL : TransmissionLine.init name b1 b2 r x with e2 | t <;>
        simp [hTL]
  · intro h
    simp [Circuit.add_transformer, h]
  · intro h1 h2
    rcases h2 with h | h <;>
      simp [Circuit.add_transformer, h1, h]
  · intro e
    simp only [Circuit.add_transformer]
    split_ifs with h1 h2
    · simp
    · simp
    · rcases hT : Transformer.init name b1 b2 r x 0 0 with e2 | t <;>
        simp [hT]

/-- Witness for C8 at the concrete circuit cW (one bus busA, one line named
nameL, one transformer named nameT): a duplicate line name, a duplicate
transformer name, and a fresh name with the unregistered endpoint busB. -/
theorem circuit_add_branch_error_behavior_witness :
    (cW.add_transmission_line nameL busA busA 1 1
        = (cW, some PyErr.alreadyExists))
    ∧ (cW.add_transmission_line nameG busA busB 1 1
        = (cW, some PyErr.notBothInCircuit))
    ∧ (cW.add_transformer nameT busA busA 1 1
        = (cW, some PyErr.alreadyExists))
    ∧ (cW.add_transformer nameG busA busB 1 1
        = (cW, some PyErr.notBothInCircuit)) :=
  ⟨(circuit_add_branch_error_behavior cW nameL busA busA 1 1).1 (by decide),
   (circuit_add_branch_error_behavior cW nameG busA busB 1 1).2.1 (by decide)
     (Or.inr (by decide)),
   (circuit_add_branch_error_behavior cW nameT busA busA 1 1).2.2.2.1 (by decide),
   (circuit_add_branch_error_behavior cW nameG busA busB 1 1).2.2.2.2.1 (by decide)
     (Or.inr (by decide))⟩

/-- Claim C9 (counterexample): registration with the whitespace-only name
" " succeeds for all three component kinds — TransmissionLine and Transformer
construction raise no InvalidParameter and store the name " " itself,
untrimmed, and add_bus stores the key " " verbatim — although " " is empty
after trimming surrounding whitespace. -/
theorem line_whitespace_name_accepted :
    (TransmissionLine.init nameWS busA busB 1 1).map (fun t => t.name)
      = Except.ok nameWS
    ∧ (Transformer.init nameWS busA busB 1 1 0 0).map (fun t => t.name)
      = Except.ok nameWS
    ∧ (emptyCircuit.add_bus nameWS 1).2 = none
    ∧ (emptyCircuit.add_bus nameWS 1).1.buses = [(nameWS, ⟨nameWS, 1⟩)]
    ∧ pyStrip nameWS = "" := by
  refine ⟨?_, ?_, ?_, ?_, by decide⟩
  · simp only [TransmissionLine.init, TransmissionLine.validate_params,
      nameWS, busA, busB]
    norm_num [Except.map]
    simp
  · simp only [Transformer.init, Transformer.validate_params,
      nameWS, busA, busB]
    norm_num [Except.map]
    simp
  · simp [Circuit.add_bus, hasKey, emptyCircuit]
  · simp [Circuit.add_bus, hasKey, emptyCircuit]

/-- Claim C9 (amended): the element constructors — both TransmissionLine and
Transformer — reject only the exactly-empty name or bus-reference string (a
whitespace-only string passes, together with the numeric checks) and store
accepted names verbatim, untrimmed; Circuit.add_bus applies no name
validation at all and stores the key exactly as given. -/
theorem name_validation_exact_empty (name b1 b2 : String) (r x g b : ℚ) :
    ((∃ t, TransmissionLine.init name b1 b2 r x = Except.ok t)
      ↔ (¬ name = "" ∧ ¬ b1 = "" ∧ ¬ b2 = ""
          ∧ 0 ≤ r ∧ 0 ≤ x ∧ ¬ (r = 0 ∧ x = 0)))
    ∧ (∀ t, TransmissionLine.init name b1 b2 r x = Except.ok t →
        t.name = name ∧ t.bus1_name = b1 ∧ t.bus2_name = b2)
    ∧ ((∃ t, Transformer.init name b1 b2 r x g b = Except.ok t)
      ↔ (¬ name = "" ∧ ¬ b1 = "" ∧ ¬ b2 = ""
          ∧ 0 ≤ r ∧ 0 ≤ x ∧ 0 ≤ g ∧ 0 ≤ b ∧ ¬ (r = 0 ∧ x = 0)))
    ∧ (∀ t, Transformer.init name b1 b2 r x g b = Except.ok t →
        t.name = name ∧ t.bus1_name = b1 ∧ t.bus2_name = b2)
    ∧ (∀ (c : Circuit) (kv : ℚ), hasKey c.buses name = false →
        (c.add_bus name kv).2 = none
        ∧ (c.add_bus name kv).1.buses = c.buses ++ [(name, ⟨name, kv⟩)]) := by
  refine ⟨⟨?_, ?_⟩, ?_, ⟨?_, ?_⟩, ?_, ?_⟩
  · rintro ⟨t, ht⟩
    simp only [TransmissionLine.init, TransmissionLine.validate_params] at ht
    split_ifs at ht with h1 h2 h3
    push_neg at h1 h2
    exact ⟨h1.1, h1.2.1, h1.2.2, h2.1, h2.2, h3⟩
  · rintro ⟨hn, hb1, hb2, hr, hx, hz⟩
    refine ⟨⟨name, b1, b2, r, x, TransmissionLine.calc_g r x,
      TransmissionLine.calc_b r x,
      TransmissionLine.build_admittance_matrix r x
        (TransmissionLine.calc_g r x) (TransmissionLine.calc_b r x)⟩, ?_⟩
    simp only [TransmissionLine.init, TransmissionLine.validate_params]
    rw [if_neg (by simp [hn, hb1, hb2]),
      if_neg (by simp [not_lt.mpr hr, not_lt.mpr hx]), if_neg hz]
  · intro t ht
    simp only [TransmissionLine.init, TransmissionLine.validate_params] at ht
    split_ifs at ht with h1 h2 h3
    injection ht with ht
    subst ht
    exact ⟨rfl, rfl, rfl⟩
  · rintro ⟨t, ht⟩
    simp only [Transformer.init, Transformer.validate_params] at ht
    split_ifs at ht with h1 h2 h3
    push_neg at h1 h2
    exact ⟨h1.1, h1.2.1, h1.2.2, h2.1, h2.2.1, h2.2.2.1, h2.2.2.2, h3⟩
  · rintro ⟨hn, hb1, hb2, hr, hx, hsg, hsb, hz⟩
    refine ⟨⟨name, b1, b2, r, x, g, b,
      Transformer.build_admittance_matrix r x⟩, ?_⟩
    simp only [Transformer.init, Transformer.validate_params]
    rw [if_neg (by simp [hn, hb1, hb2]),
      if_neg (by simp [not_lt.mpr hr, not_lt.mpr hx,
        not_lt.mpr hsg, not_lt.mpr hsb]), if_neg hz]
  · intro t ht
    simp only [Transformer.init, Transformer.validate_params] at ht
    split_ifs at ht with h1 h2 h3
    injection ht with ht
    subst ht
    exact ⟨rfl, rfl, rfl⟩
  · intro c kv h
    constructor <;> simp [Circuit.add_bus, h]

/-- Witness for the amended C9 at the whitespace-only name " ", buses "A",
"B", r = x = 1, shunt g = b = 0, and the empty circuit. -/
theorem name_validation_exact_empty_witness :
    ((∃ t, TransmissionLine.init nameWS busA busB 1 1 = Except.ok t)
      ↔ (¬ nameWS = "" ∧ ¬ busA = "" ∧ ¬ busB = ""
          ∧ (0 : ℚ) ≤ 1 ∧ (0 : ℚ) ≤ 1 ∧ ¬ ((1 : ℚ) = 0 ∧ (1 : ℚ) = 0)))
    ∧ ((∃ t, Transformer.init nameWS busA busB 1 1 0 0 = Except.ok t)
      ↔ (¬ nameWS = "" ∧ ¬ busA = "" ∧ ¬ busB = ""
          ∧ (0 : ℚ) ≤ 1 ∧ (0 : ℚ) ≤ 1 ∧ (0 : ℚ) ≤ 0 ∧ (0 : ℚ) ≤ 0
          ∧ ¬ ((1 : ℚ) = 0 ∧ (1 : ℚ) = 0)))
    ∧ ((emptyCircuit.add_bus nameWS 1).2 = none
        ∧ (emptyCircuit.add_bus nameWS 1).1.buses
          = emptyCircuit.buses ++ [(nameWS, ⟨nameWS, 1⟩)]) :=
  ⟨(name_validation_exact_empty nameWS busA busB 1 1 0 0).1,
   (name_validation_exact_empty nameWS busA busB 1 1 0 0).2.2.1,
   (name_validation_exact_empty nameWS busA busB 1 1 0 0).2.2.2.2 emptyCircuit 1
     (by decide)⟩

/-- Claim C10 (counterexample): add_generator does not succeed for ANY
bus_name string — with the empty bus name it raises the Generator
constructor ValueError (and the circuit is unchanged), because the element
itself validates its strings even though no bus-existence check is made. -/
theorem add_generator_empty_bus_rejected :
    emptyCircuit.add_generator nameG emptyName 20 200
      = (emptyCircuit, some PyErr.nonEmptyString) := by
  simp only [Circuit.add_generator, Generator.init, hasKey, emptyCircuit,
    nameG, emptyName]
  norm_num [pyStrip]

/-- Claim C10 (amended): add_generator and add_load perform no bus-existence
check — for any circuit, any fresh name and any bus reference accepted by
the element string validation (non-empty after stripping for Generator;
non-empty for Load), the call succeeds and appends the element, regardless
of whether the bus is in the bus registry (no hypothesis below mentions
c.buses). -/
theorem add_generator_load_no_bus_check (c : Circuit) (name bus : String)
    (v mw mvar : ℚ)
    (hg : hasKey c.generators name = false)
    (hgn : ¬ pyStrip name = "") (hgb : ¬ pyStrip bus = "") (hv : 0 < v)
    (hl : hasKey c.loads name = false)
    (hln : ¬ name = "") (hlb : ¬ bus = "") :
    c.add_generator name bus v mw
      = ({ c with generators := c.generators ++ [(name, ⟨name, bus, mw, some v⟩)] },
          none)
    ∧ c.add_load name bus mw mvar
      = ({ c with loads := c.loads ++ [(name, ⟨name, bus, mw, mvar⟩)] }, none) := by
  constructor
  · simp only [Circuit.add_generator, Generator.init, hg]
    rw [if_neg (by simp), if_neg (by simp [hgn, hgb]),
      if_neg (not_le.mpr hv)]
  · simp only [Circuit.add_load, Load.init, hl]
    rw [if_neg (by simp), if_neg (by simp [hln, hlb])]

/-- Witness for the amended C10 at the empty circuit, whose bus registry is
empty, so the referenced bus busB is certainly unregistered. -/
theorem add_generator_load_no_bus_check_witness :
    emptyCircuit.add_generator nameG busB 20 200
      = ({ emptyCircuit with
            generators := emptyCircuit.generators
              ++ [(nameG, ⟨nameG, busB, 200, some 20⟩)] }, none)
    ∧ emptyCircuit.add_load nameG busB 200 50
      = ({ emptyCircuit with
            loads := emptyCircuit.loads ++ [(nameG, ⟨nameG, busB, 200, 50⟩)] },
          none) :=
  add_generator_load_no_bus_check emptyCircuit nameG busB 20 200 50
    (by decide) (by decide) (by decide) (by norm_num)
    (by decide) (by decide) (by decide)
